import Mathlib

/-! Verification development for the tumour ODE simulation engine
(`utils/modelSolverClass.py`, class `TumourModelClass`).

The numeric carrier is `ℚ` (exact arithmetic standing in for the float
arithmetic of the source).  The external numerical integrator
(`scipy.integrate.solve_ivp`) is modelled as an abstract `Solver`
function returning a `SolObj` (success flag, solution columns, message);
the piecewise integration driver `Simulate` is embedded faithfully
around it, including its divergence handling, the all-zero sentinel
trajectory, and the append/restart semantics of the stored results.
Paths on which the Python code raises an exception (empty schedule,
empty evaluation grid, ragged solver output) are modelled by `none`.
-/

/-- The parameter dictionary `self.paramDic`.  The Python dict holds a
law-dependent subset of these keys; the structure carries the union, with
the defaults assigned in `__init__` (`r1_hd` defaults to `r1`). -/
structure ParamDic where
  r1 : ℚ
  r2 : ℚ
  d : ℚ
  S0 : ℚ
  R0 : ℚ
  DMax : ℚ
  K : ℚ
  r1_hd : ℚ
  gamma : ℚ
  reSensitRate : ℚ
  resAcquisRate : ℚ
  scaleFactor : ℚ
deriving DecidableEq, Repr

/-- Default parameter values from `TumourModelClass.__init__`. -/
def defaultParamDic : ParamDic :=
  { r1 := 1, r2 := 1, d := 1/2, S0 := 5000, R0 := 100, DMax := 100,
    K := 10^7, r1_hd := 1, gamma := 0,
    reSensitRate := 1/10, resAcquisRate := 1/10, scaleFactor := 1 }

/-- A state vector `(S, R, D)` = (sensitive count, resistant count, drug level),
the `uVec`/`currStateVec` of the source. -/
structure State where
  S : ℚ
  R : ℚ
  D : ℚ
deriving DecidableEq, Repr

/-- Growth law 1 (exponential), sensitive population. -/
def GrowthFun_S_law1 (p : ParamDic) (N1 N2 D : ℚ) : ℚ := p.r1 * N1

/-- Growth law 1 (exponential), resistant population. -/
def GrowthFun_R_law1 (p : ParamDic) (N1 N2 D : ℚ) : ℚ := p.r2 * N2

/-- Growth law 2 (logistic), sensitive population. -/
def GrowthFun_S_law2 (p : ParamDic) (N1 N2 D : ℚ) : ℚ :=
  p.r1 * (1 - (N1 + N2) / p.K) * N1

/-- Growth law 2 (logistic), resistant population. -/
def GrowthFun_R_law2 (p : ParamDic) (N1 N2 D : ℚ) : ℚ :=
  p.r2 * (1 - (N1 + N2) / p.K) * N2

/-- Growth law 4 (logistic with drug-modulated sensitive growth),
sensitive population. -/
def GrowthFun_S_law4 (p : ParamDic) (N1 N2 D : ℚ) : ℚ :=
  p.r1 * (1 - (N1 + N2) / p.K) * N1 * (1 - p.d * D / p.DMax)

/-- Growth law 4, resistant population (drug-independent logistic). -/
def GrowthFun_R_law4 (p : ParamDic) (N1 N2 D : ℚ) : ℚ :=
  p.r2 * (1 - (N1 + N2) / p.K) * N2

/-- Growth law 5 (logistic with a count-threshold switch of the sensitive
growth rate at `N1 = 50`; the Python booleans `(N1<50)`, `(N1>=50)` multiply
as 0/1), sensitive population. -/
def GrowthFun_S_law5 (p : ParamDic) (N1 N2 D : ℚ) : ℚ :=
  (p.r1 * (if N1 < 50 then 1 else 0) + p.r1_hd * (if N1 ≥ 50 then 1 else 0)) *
    (1 - (N1 + N2) / p.K) * N1

/-- Growth law 5, resistant population (identically zero). -/
def GrowthFun_R_law5 (p : ParamDic) (N1 N2 D : ℚ) : ℚ := 0

/-- Growth law 6 (logistic in the sensitive count alone, with
drug-modulated growth and a constant attrition term `gamma`),
sensitive population. -/
def GrowthFun_S_law6 (p : ParamDic) (N1 N2 D : ℚ) : ℚ :=
  p.r1 * (1 - N1 / p.K) * N1 * (1 - p.d * D / p.DMax) - p.gamma * N1

/-- Growth law 6, resistant population (identically zero). -/
def GrowthFun_R_law6 (p : ParamDic) (N1 N2 D : ℚ) : ℚ := 0

/-- The phenotypic switching flux (switching enabled branch of `__init__`). -/
def PhenotypicSwitchingFun (p : ParamDic) (S R D : ℚ) : ℚ :=
  p.reSensitRate * (1 - D / p.DMax) * R - p.resAcquisRate * S * D / p.DMax

/-- The switching flux with switching disabled (identically zero). -/
def PhenotypicSwitchingFun_off (p : ParamDic) (S R D : ℚ) : ℚ := 0

/-- `ModelEqns`: the governing equations.  `GS`, `GR`, `PS` are the growth
and switching closures stored on the instance (`self.GrowthFun_S` etc.),
`growthFunIdx` the law identifier.  The Python booleans
`(self.growthFunIdx!=4)` and `(self.growthFunIdx!=6)` multiply the generic
death term as 0/1 factors.  Returns `(dS/dt, dR/dt, dD/dt)`. -/
def ModelEqns (growthFunIdx : ℕ) (GS GR PS : ℚ → ℚ → ℚ → ℚ)
    (p : ParamDic) (S R D : ℚ) : ℚ × ℚ × ℚ :=
  (GS S R D + PS S R D -
      p.d * D / p.DMax * S * (if growthFunIdx ≠ 4 then 1 else 0) *
        (if growthFunIdx ≠ 6 then 1 else 0),
   GR S R D - PS S R D,
   0)

/-- The negative-value divergence test `np.any(solObj.y < 0)` applied to the
raw solver output: true iff some component of some column is strictly
negative. -/
def hasNeg (y : List State) : Bool :=
  y.any (fun s => decide (s.S < 0) || decide (s.R < 0) || decide (s.D < 0))

/-- One row of the four-column results DataFrame built per interval. -/
structure Row where
  Time : ℚ
  S : ℚ
  R : ℚ
  DrugConcentration : ℚ
deriving DecidableEq, Repr

/-- One row of the stored results DataFrame after the `TumourSize`
(observable) column has been added. -/
structure ObsRow where
  Time : ℚ
  S : ℚ
  R : ℚ
  DrugConcentration : ℚ
  TumourSize : ℚ
deriving DecidableEq, Repr

/-- `RunCellCountToFluorescentAreaModel`, linear (`areaModel='linear'`)
branch: elementwise `scaleFactor*(R + S)` over the trajectory.  (The
`'sphere'` branch applies a real 2/3 power and is outside the rational
carrier; no claim concerns it.) -/
def RunCellCountToFluorescentAreaModel (scaleFactor : ℚ) (rows : List Row) :
    List ℚ :=
  rows.map (fun r => scaleFactor * (r.R + r.S))

/-- The outcome object returned by `scipy.integrate.solve_ivp`: success
flag, solution columns (one `State` per evaluation time), and message. -/
structure SolObj where
  success : Bool
  y : List State
  message : String
deriving DecidableEq, Repr

/-- An abstract numerical solver: given the evaluation time grid `t_eval`
and the seed state `y0`, return a `SolObj`.  (The right-hand side,
`t_span`, tolerances and method of the `solve_ivp` call are fixed per
model instance and absorbed into the function.) -/
def Solver : Type := List ℚ → State → SolObj

/-- `np.arange(a, b, dt)`: the points `a + k*dt` for
`k = 0, ..., ⌈(b-a)/dt⌉ - 1` (exact rational semantics). -/
def arange (a b dt : ℚ) : List ℚ :=
  (List.range (⌈(b - a) / dt⌉).toNat).map (fun k : ℕ => a + (k : ℚ) * dt)

/-- A dosing interval (spec: DosingInterval) `(tStart, tEnd, dose)` of the treatment schedule. -/
structure DosingInterval where
  tStart : ℚ
  tEnd : ℚ
  dose : ℚ
deriving DecidableEq, Repr

/-- The evaluation grid `tVec` of an interval, given the remaining
intervals of the schedule: `np.arange(start, end, dt)`, extended one step
past `end` when the interval is the last one (lines 124-126). -/
def intervalGrid (dt : ℚ) (iv : DosingInterval) (rest : List DosingInterval) :
    List ℚ :=
  if rest.isEmpty then arange iv.tStart (iv.tEnd + dt) dt
  else arange iv.tStart iv.tEnd dt

/-- The evaluation grid of the first interval of a schedule. -/
def firstGrid (dt : ℚ) : List DosingInterval → List ℚ
  | [] => []
  | iv :: rest => intervalGrid dt iv rest

/-- The four-column per-interval DataFrame
`pd.DataFrame({"Time": tVec, "S": y[0], "R": y[1], "DrugConcentration": y[2]})`. -/
def buildRows (tVec : List ℚ) (y : List State) : List Row :=
  (tVec.zip y).map (fun q => ⟨q.1, q.2.S, q.2.R, q.2.D⟩)

/-- The interval loop of `Simulate` (lines 123-156): iterate the schedule,
fixing the drug level to the interval dose, calling the solver on the
interval grid, breaking on failure or on a negative component, otherwise
accumulating the per-interval DataFrames and carrying the last solution
column forward.  Returns `(resultsDFList, encounteredProblemB, errMessage)`;
`none` models the paths on which the Python raises (empty grid: index
error on `tVec[0]`; solver output length differing from the grid: pandas
constructor error). -/
def runLoop (solver : Solver) (dt : ℚ) : State → List DosingInterval →
    Option (List (List Row) × Bool × Option String)
  | _, [] => some ([], false, none)
  | st, iv :: rest =>
    let tVec := intervalGrid dt iv rest
    if tVec.isEmpty then none
    else
      let sol := solver tVec ⟨st.S, st.R, iv.dose⟩
      if !sol.success || hasNeg sol.y then some ([], true, some sol.message)
      else if sol.y.length ≠ tVec.length then none
      else
        match sol.y.getLast? with
        | none => none
        | some lastCol =>
          match runLoop solver dt lastCol rest with
          | none => none
          | some (segs, prob, msg) => some (buildRows tVec sol.y :: segs, prob, msg)

/-- The result of one `Simulate` call: the stored `self.resultsDf` (with
the `TumourSize` column), the success flag `self.successB`, and the
recorded `self.errMessage` (if any failure message was recorded). -/
structure SimResult where
  resultsDf : List ObsRow
  successB : Bool
  errMessage : Option String
deriving DecidableEq, Repr

/-- Add the `TumourSize` column produced by the vectorised observable map
`areaFun` to a four-column trajectory (line 165). -/
def addTumourSize (areaFun : List Row → List ℚ) (rows : List Row) :
    List ObsRow :=
  (rows.zip (areaFun rows)).map
    (fun q => ⟨q.1.Time, q.1.S, q.1.R, q.1.DrugConcentration, q.2⟩)

/-- The tail of `Simulate` after the seed state and retained prior
trajectory have been fixed (lines 121-170): run the interval loop from
`st0`, substitute the all-zero sentinel over the first interval's grid
when no interval produced output, add the observable column, append after
the retained prior trajectory, and set the success flag. -/
def SimulateFrom (solver : Solver) (areaFun : List Row → List ℚ) (dt : ℚ)
    (st0 : State) (prior : Option (List ObsRow)) (sched : List DosingInterval) :
    Option SimResult :=
  match runLoop solver dt st0 sched with
  | none => none
  | some (segs, prob, msg) =>
    let newRows : List Row :=
      if segs.isEmpty then (firstGrid dt sched).map (fun t => ⟨t, 0, 0, 0⟩)
      else segs.flatten
    let withObs := addTumourSize areaFun newRows
    some ⟨(match prior with | none => withObs | some df => df ++ withObs),
          !prob, msg⟩

/-- `Simulate` (lines 104-170).  `p` is the parameter dictionary (supplying
`initialStateList = [S0, R0]`), `prior` the stored `self.resultsDf` from
earlier calls (`none` when absent).  When a prior trajectory exists and the
schedule does not start at time 0, integration is seeded from the prior's
last recorded state and the prior is retained for appending; otherwise the
prior is discarded and the seed is `(S0, R0, 0)`.  `none` models the
exception paths (empty schedule, empty stored prior DataFrame, and the
`none` paths of `runLoop`). -/
def Simulate (solver : Solver) (areaFun : List Row → List ℚ) (dt : ℚ)
    (p : ParamDic) (prior : Option (List ObsRow)) (sched : List DosingInterval) :
    Option SimResult :=
  match sched with
  | [] => none
  | iv0 :: _ =>
    match prior with
    | none => SimulateFrom solver areaFun dt ⟨p.S0, p.R0, 0⟩ none sched
    | some df =>
      if iv0.tStart = 0 then
        SimulateFrom solver areaFun dt ⟨p.S0, p.R0, 0⟩ none sched
      else
        match df.getLast? with
        | none => none
        | some r =>
          SimulateFrom solver areaFun dt ⟨r.S, r.R, r.DrugConcentration⟩
            (some df) sched

/-- The successful-prefix runner: the restriction of the interval loop to
an initial segment of the schedule that is followed by further intervals
(so every grid is the half-open one), on which every solver call passes
the convergence and negativity checks.  Returns the accumulated
per-interval DataFrames and the carried state; `none` if any check or
error path is hit. -/
def runAccum (solver : Solver) (dt : ℚ) : State → List DosingInterval →
    Option (List (List Row) × State)
  | st, [] => some ([], st)
  | st, iv :: rest =>
    let tVec := arange iv.tStart iv.tEnd dt
    if tVec.isEmpty then none
    else
      let sol := solver tVec ⟨st.S, st.R, iv.dose⟩
      if !sol.success || hasNeg sol.y then none
      else if sol.y.length ≠ tVec.length then none
      else
        match sol.y.getLast? with
        | none => none
        | some lastCol =>
          match runAccum solver dt lastCol rest with
          | none => none
          | some (segs, fin) => some (buildRows tVec sol.y :: segs, fin)

/-- A solver that holds the seed state constant over the whole grid: the
exact solution of the system when every derivative vanishes (e.g. law 2
with r1 = r2 = d = 0 and switching disabled); since dD/dt = 0 always,
its drug column is exactly the seed dose. -/
def constSolver : Solver := fun tVec y0 => ⟨true, tVec.map (fun _ => y0), "ok"⟩

/-- A solver that always reports failure, with an empty solution array. -/
def failSolver : Solver := fun _ _ => ⟨false, [], "solver failure"⟩

/-- A solver that succeeds (holding the state constant) on grids starting
at time 0 and reports failure on any other grid. -/
def lateFailSolver : Solver := fun tVec y0 =>
  if tVec.head? = some 0 then ⟨true, tVec.map (fun _ => y0), "ok"⟩
  else ⟨false, [], "step failure"⟩

/-- A solver that clamps both populations to be nonnegative and holds the
drug level at the seed dose. -/
def clampSolver : Solver := fun tVec y0 =>
  ⟨true, tVec.map (fun _ => ⟨max y0.S 0, max y0.R 0, y0.D⟩), "ok"⟩

/-- The list of evaluation grids of a schedule: half-open grids for every
interval except the last one, whose grid is extended by one step. -/
def gridList (dt : ℚ) : List DosingInterval → List (List ℚ)
  | [] => []
  | iv :: rest => intervalGrid dt iv rest :: gridList dt rest

/-- A well-behaved numerical solver for this system: it always reports
success, returns one solution column per grid point, holds the drug level
exactly at the seed dose (the embedded dD/dt = 0), and keeps both
population components nonnegative. -/
def SolverSpec (solver : Solver) : Prop :=
  ∀ (tVec : List ℚ) (y0 : State),
    (solver tVec y0).success = true
    ∧ (solver tVec y0).y.length = tVec.length
    ∧ ∀ s ∈ (solver tVec y0).y, s.D = y0.D ∧ 0 ≤ s.S ∧ 0 ≤ s.R

-- =====================================================================
-- Support lemmas about the evaluation grid
-- =====================================================================

/-- Membership in `np.arange(a, b, dt)` for a positive step: exactly the
points `a + k*dt` strictly below `b`. -/
theorem arange_mem (a b dt x : ℚ) (hdt : 0 < dt) :
    x ∈ arange a b dt ↔ ∃ k : ℕ, x = a + (k : ℚ) * dt ∧ x < b := by
  unfold arange
  constructor
  · intro hx
    obtain ⟨k, hk, hfx⟩ := List.mem_map.mp hx
    have hkn : k < (⌈(b - a) / dt⌉).toNat := List.mem_range.mp hk
    refine ⟨k, hfx.symm, ?_⟩
    have h1 : (k : ℤ) < ⌈(b - a) / dt⌉ := Int.lt_toNat.mp hkn
    have h2 : (k : ℚ) < (b - a) / dt := by exact_mod_cast Int.lt_ceil.mp h1
    have h3 : (k : ℚ) * dt < b - a := (lt_div_iff₀ hdt).mp h2
    rw [← hfx]
    linarith
  · rintro ⟨k, rfl, hx⟩
    refine List.mem_map.mpr ⟨k, List.mem_range.mpr ?_, rfl⟩
    have h3 : (k : ℚ) * dt < b - a := by linarith
    have h2 : (k : ℚ) < (b - a) / dt := (lt_div_iff₀ hdt).mpr h3
    have h1 : (k : ℤ) < ⌈(b - a) / dt⌉ := Int.lt_ceil.mpr (by exact_mod_cast h2)
    exact Int.lt_toNat.mpr h1

/-- Evaluation of `arange` from a computed ceiling. -/
theorem arange_eq_of_ceil (a b dt : ℚ) (n : ℕ) (h : ⌈(b - a) / dt⌉ = (n : ℤ)) :
    arange a b dt = (List.range n).map (fun k : ℕ => a + (k : ℚ) * dt) := by
  unfold arange
  rw [h]
  simp

/-- A convenient evaluation form of `arange`: supply the point count `n`
together with the two inequalities pinning down the ceiling. -/
theorem arange_eval (a b dt : ℚ) (n : ℕ) (h1 : (n : ℚ) - 1 < (b - a) / dt)
    (h2 : (b - a) / dt ≤ (n : ℚ)) :
    arange a b dt = (List.range n).map (fun k : ℕ => a + (k : ℚ) * dt) := by
  apply arange_eq_of_ceil
  rw [Int.ceil_eq_iff]
  constructor
  · push_cast
    exact h1
  · push_cast
    exact h2

/-- `arange` over a span that is an exact natural multiple of the step. -/
theorem arange_cast_nat (a : ℚ) (n : ℕ) (dt : ℚ) (hdt : 0 < dt) :
    arange a (a + (n : ℚ) * dt) dt
      = (List.range n).map (fun k : ℕ => a + (k : ℚ) * dt) := by
  apply arange_eq_of_ceil
  have h : (a + (n : ℚ) * dt - a) / dt = ((n : ℕ) : ℚ) := by
    field_simp
  rw [h, Int.ceil_natCast]

/-- Extending the right endpoint of an exact-multiple grid by one step
appends exactly the old endpoint. -/
theorem arange_append_last (a : ℚ) (n : ℕ) (dt : ℚ) (hdt : 0 < dt) :
    arange a (a + (n : ℚ) * dt + dt) dt
      = arange a (a + (n : ℚ) * dt) dt ++ [a + (n : ℚ) * dt] := by
  have h1 : a + (n : ℚ) * dt + dt = a + ((n + 1 : ℕ) : ℚ) * dt := by
    push_cast
    ring
  rw [h1, arange_cast_nat a (n + 1) dt hdt, arange_cast_nat a n dt hdt,
    List.range_succ]
  simp

/-- A positive-step grid over a nonempty time span is nonempty. -/
theorem arange_ne_nil (a b dt : ℚ) (hdt : 0 < dt) (hab : a < b) :
    arange a b dt ≠ [] := by
  intro h
  have hm : a ∈ arange a b dt :=
    (arange_mem a b dt a hdt).mpr ⟨0, by push_cast; ring, hab⟩
  rw [h] at hm
  cases hm

-- =====================================================================
-- Support lemmas about the integration driver
-- =====================================================================

/-- The divergence test as a proposition. -/
theorem hasNeg_iff (y : List State) :
    hasNeg y = true ↔ ∃ s ∈ y, s.S < 0 ∨ s.R < 0 ∨ s.D < 0 := by
  simp [hasNeg, List.any_eq_true, or_assoc]

/-- Componentwise nonnegative solutions pass the divergence test. -/
theorem hasNeg_false_of_nonneg (y : List State)
    (h : ∀ s ∈ y, 0 ≤ s.S ∧ 0 ≤ s.R ∧ 0 ≤ s.D) : hasNeg y = false := by
  cases hEq : hasNeg y with
  | false => rfl
  | true =>
    obtain ⟨s, hs, hneg⟩ := (hasNeg_iff y).mp hEq
    obtain ⟨h1, h2, h3⟩ := h s hs
    rcases hneg with h' | h' | h'
    · exact absurd h1 (not_le.mpr h')
    · exact absurd h2 (not_le.mpr h')
    · exact absurd h3 (not_le.mpr h')

/-- Time column of a per-interval DataFrame whose solution has one column
per grid point. -/
theorem buildRows_times (tVec : List ℚ) (y : List State)
    (h : y.length = tVec.length) :
    (buildRows tVec y).map (fun r => r.Time) = tVec := by
  unfold buildRows
  rw [List.map_map]
  exact List.map_fst_zip tVec y (le_of_eq h.symm)

/-- Adding the linear observable column, written per row. -/
theorem addTumourSize_linear (sf : ℚ) (rows : List Row) :
    addTumourSize (RunCellCountToFluorescentAreaModel sf) rows
      = rows.map (fun r =>
          ObsRow.mk r.Time r.S r.R r.DrugConcentration (sf * (r.R + r.S))) := by
  induction rows with
  | nil => rfl
  | cons r rs ih =>
    simp only [addTumourSize, RunCellCountToFluorescentAreaModel, List.map_cons,
      List.zip_cons_cons] at ih ⊢
    exact congrArg (List.cons _) ih

/-- The linear observable keeps the time column unchanged. -/
theorem addTumourSize_times (sf : ℚ) (rows : List Row) :
    (addTumourSize (RunCellCountToFluorescentAreaModel sf) rows).map
        (fun r => r.Time)
      = rows.map (fun r => r.Time) := by
  rw [addTumourSize_linear, List.map_map]
  rfl

/-- Inversion of one successful step of the prefix runner. -/
theorem runAccum_cons_inv (solver : Solver) (dt : ℚ) (st : State)
    (iv : DosingInterval) (rest : List DosingInterval)
    (segs : List (List Row)) (fin : State)
    (h : runAccum solver dt st (iv :: rest) = some (segs, fin)) :
    ∃ lastCol segs',
      ((arange iv.tStart iv.tEnd dt).isEmpty = false
      ∧ (!(solver (arange iv.tStart iv.tEnd dt) ⟨st.S, st.R, iv.dose⟩).success
          || hasNeg (solver (arange iv.tStart iv.tEnd dt)
              ⟨st.S, st.R, iv.dose⟩).y) = false
      ∧ (solver (arange iv.tStart iv.tEnd dt) ⟨st.S, st.R, iv.dose⟩).y.length
          = (arange iv.tStart iv.tEnd dt).length
      ∧ (solver (arange iv.tStart iv.tEnd dt) ⟨st.S, st.R, iv.dose⟩).y.getLast?
          = some lastCol
      ∧ runAccum solver dt lastCol rest = some (segs', fin)
      ∧ segs = buildRows (arange iv.tStart iv.tEnd dt)
          (solver (arange iv.tStart iv.tEnd dt) ⟨st.S, st.R, iv.dose⟩).y
            :: segs') := by
  simp only [runAccum] at h
  split at h
  · exact Option.noConfusion h
  next hne =>
    split at h
    · exact Option.noConfusion h
    next hok =>
      split at h
      · exact Option.noConfusion h
      next hlen =>
        split at h
        · exact Option.noConfusion h
        next lastCol hlast =>
          split at h
          · exact Option.noConfusion h
          next segs' fin' hrec =>
            injection h with h'
            injection h' with hsegs hfin
            subst hfin
            refine ⟨lastCol, segs', ?_, ?_, ?_, hlast, hrec, hsegs.symm⟩
            · exact Bool.of_not_eq_true hne
            · exact Bool.of_not_eq_true hok
            · exact not_ne_iff.mp hlen

/-- The prefix runner produces one per-interval DataFrame per interval. -/
theorem runAccum_length (solver : Solver) (dt : ℚ) :
    ∀ (ivs : List DosingInterval) (st : State) (segs : List (List Row))
      (fin : State),
      runAccum solver dt st ivs = some (segs, fin) → segs.length = ivs.length := by
  intro ivs
  induction ivs with
  | nil =>
    intro st segs fin h
    simp only [runAccum] at h
    injection h with h'
    injection h' with hsegs hfin
    rw [← hsegs]
    rfl
  | cons iv rest ih =>
    intro st segs fin h
    obtain ⟨lastCol, segs', _, _, _, _, hrec, hsegs⟩ :=
      runAccum_cons_inv _ _ _ _ _ _ _ h
    subst hsegs
    simp [ih _ _ _ hrec]

/-- One step of the interval loop when every convergence check passes. -/
theorem runLoop_cons_ok (solver : Solver) (dt : ℚ) (st : State)
    (iv : DosingInterval) (rest : List DosingInterval) (lastCol : State)
    (hne : (intervalGrid dt iv rest).isEmpty = false)
    (hok : (!(solver (intervalGrid dt iv rest) ⟨st.S, st.R, iv.dose⟩).success
        || hasNeg (solver (intervalGrid dt iv rest) ⟨st.S, st.R, iv.dose⟩).y)
        = false)
    (hlen : (solver (intervalGrid dt iv rest) ⟨st.S, st.R, iv.dose⟩).y.length
        = (intervalGrid dt iv rest).length)
    (hlast : (solver (intervalGrid dt iv rest) ⟨st.S, st.R, iv.dose⟩).y.getLast?
        = some lastCol) :
    runLoop solver dt st (iv :: rest)
      = (runLoop solver dt lastCol rest).map
          (fun x => (buildRows (intervalGrid dt iv rest)
              (solver (intervalGrid dt iv rest) ⟨st.S, st.R, iv.dose⟩).y :: x.1,
            x.2)) := by
  cases hr : runLoop solver dt lastCol rest with
  | none => simp [runLoop, hne, hok, hlen, hlast, hr]
  | some x =>
    obtain ⟨segs, prob, msg⟩ := x
    simp [runLoop, hne, hok, hlen, hlast, hr]

/-- One step of the interval loop when the convergence check fails or a
negative component appears: the loop breaks with the solver's message. -/
theorem runLoop_cons_break (solver : Solver) (dt : ℚ) (st : State)
    (iv : DosingInterval) (rest : List DosingInterval)
    (hne : (intervalGrid dt iv rest).isEmpty = false)
    (hbad : (!(solver (intervalGrid dt iv rest) ⟨st.S, st.R, iv.dose⟩).success
        || hasNeg (solver (intervalGrid dt iv rest) ⟨st.S, st.R, iv.dose⟩).y)
        = true) :
    runLoop solver dt st (iv :: rest)
      = some ([], true,
          some (solver (intervalGrid dt iv rest)
            ⟨st.S, st.R, iv.dose⟩).message) := by
  simp [runLoop, hne, hbad]

/-- The interval loop on a schedule whose prefix passes all checks and
whose next interval diverges: it returns exactly the prefix accumulation,
the problem flag, and the diverging call's message, ignoring all
remaining intervals. -/
theorem runLoop_break (solver : Solver) (dt : ℚ) :
    ∀ (pre : List DosingInterval) (st stMid : State) (segs : List (List Row))
      (bad : DosingInterval) (post : List DosingInterval),
      runAccum solver dt st pre = some (segs, stMid) →
      (!(solver (intervalGrid dt bad post) ⟨stMid.S, stMid.R, bad.dose⟩).success
        || hasNeg (solver (intervalGrid dt bad post)
            ⟨stMid.S, stMid.R, bad.dose⟩).y) = true →
      (intervalGrid dt bad post).isEmpty = false →
      runLoop solver dt st (pre ++ bad :: post)
        = some (segs, true,
            some (solver (intervalGrid dt bad post)
              ⟨stMid.S, stMid.R, bad.dose⟩).message) := by
  intro pre
  induction pre with
  | nil =>
    intro st stMid segs bad post hacc hdiv hne
    simp only [runAccum] at hacc
    injection hacc with h'
    injection h' with hsegs hmid
    subst hsegs
    subst hmid
    simpa using runLoop_cons_break solver dt st bad post hne hdiv
  | cons iv pres ih =>
    intro st stMid segs bad post hacc hdiv hne
    obtain ⟨lastCol, segs', hne', hok', hlen', hlast', hrec, hsegs⟩ :=
      runAccum_cons_inv _ _ _ _ _ _ _ hacc
    subst hsegs
    have key : intervalGrid dt iv (pres ++ bad :: post)
        = arange iv.tStart iv.tEnd dt := by
      have hemp : (pres ++ bad :: post).isEmpty = false := by
        cases pres <;> rfl
      simp [intervalGrid, hemp]
    rw [List.cons_append,
      runLoop_cons_ok solver dt st iv (pres ++ bad :: post) lastCol
        (by rw [key]; exact hne') (by rw [key]; exact hok')
        (by rw [key]; exact hlen') (by rw [key]; exact hlast'),
      ih lastCol stMid segs' bad post hrec hdiv hne]
    rw [key]
    rfl

/-- A fresh `Simulate` call (no stored trajectory) seeds the loop from
the initial conditions `(S0, R0, 0)` with no retained prior trajectory. -/
theorem Simulate_none_eq (solver : Solver) (areaFun : List Row → List ℚ)
    (dt : ℚ) (p : ParamDic) (sched : List DosingInterval) (h : sched ≠ []) :
    Simulate solver areaFun dt p none sched
      = SimulateFrom solver areaFun dt ⟨p.S0, p.R0, 0⟩ none sched := by
  cases sched with
  | nil => exact absurd rfl h
  | cons iv rest => rfl

/-- A restarting `Simulate` call (schedule beginning at time 0) discards
the stored trajectory and seeds the loop from `(S0, R0, 0)`. -/
theorem Simulate_restart_eq (solver : Solver) (areaFun : List Row → List ℚ)
    (dt : ℚ) (p : ParamDic) (df : List ObsRow) (iv0 : DosingInterval)
    (rest : List DosingInterval) (hstart : iv0.tStart = 0) :
    Simulate solver areaFun dt p (some df) (iv0 :: rest)
      = SimulateFrom solver areaFun dt ⟨p.S0, p.R0, 0⟩ none (iv0 :: rest) := by
  simp [Simulate, hstart]

/-- A continuing `Simulate` call (stored trajectory present, schedule not
beginning at time 0) seeds the loop from the last recorded state and
retains the stored trajectory. -/
theorem Simulate_continue_eq (solver : Solver) (areaFun : List Row → List ℚ)
    (dt : ℚ) (p : ParamDic) (df : List ObsRow) (r : ObsRow)
    (iv0 : DosingInterval) (rest : List DosingInterval)
    (hstart : iv0.tStart ≠ 0) (hlast : df.getLast? = some r) :
    Simulate solver areaFun dt p (some df) (iv0 :: rest)
      = SimulateFrom solver areaFun dt ⟨r.S, r.R, r.DrugConcentration⟩
          (some df) (iv0 :: rest) := by
  simp [Simulate, hstart, hlast]

-- =====================================================================
-- Claim theorems
-- =====================================================================

/-- C2: `ModelEqns` returns
`dS/dt = GS(S,R,D) + PS(S,R,D) - d*(D/DMax)*S` when the growth-law
identifier is neither 4 nor 6, and `dS/dt = GS(S,R,D) + PS(S,R,D)` (the
generic death term forced to zero) when the identifier is 4 or 6, for all
states and all growth/switching closures. -/
theorem ModelEqns_death_suppression
    (growthFunIdx : ℕ) (GS GR PS : ℚ → ℚ → ℚ → ℚ) (p : ParamDic) (S R D : ℚ) :
    (growthFunIdx ≠ 4 → growthFunIdx ≠ 6 →
      (ModelEqns growthFunIdx GS GR PS p S R D).1
        = GS S R D + PS S R D - p.d * D / p.DMax * S)
    ∧ (growthFunIdx = 4 ∨ growthFunIdx = 6 →
      (ModelEqns growthFunIdx GS GR PS p S R D).1 = GS S R D + PS S R D) := by
  constructor
  · intro h4 h6
    simp [ModelEqns, h4, h6]
  · rintro (rfl | rfl) <;> simp [ModelEqns]

/-- Witness for C2: concrete evaluation at law 2 (death term present) and
law 4 (death term suppressed) with the default parameters at state
(10, 20, 30). -/
theorem ModelEqns_death_suppression_witness :
    (ModelEqns 2 (GrowthFun_S_law2 defaultParamDic) (GrowthFun_R_law2 defaultParamDic)
        (PhenotypicSwitchingFun defaultParamDic) defaultParamDic 10 20 30).1
      = GrowthFun_S_law2 defaultParamDic 10 20 30
        + PhenotypicSwitchingFun defaultParamDic 10 20 30
        - defaultParamDic.d * 30 / defaultParamDic.DMax * 10
    ∧ (ModelEqns 4 (GrowthFun_S_law4 defaultParamDic) (GrowthFun_R_law4 defaultParamDic)
        (PhenotypicSwitchingFun defaultParamDic) defaultParamDic 10 20 30).1
      = GrowthFun_S_law4 defaultParamDic 10 20 30
        + PhenotypicSwitchingFun defaultParamDic 10 20 30 :=
  ⟨(ModelEqns_death_suppression 2 _ _ _ _ 10 20 30).1 (by decide) (by decide),
   (ModelEqns_death_suppression 4 _ _ _ _ 10 20 30).2 (Or.inl rfl)⟩

/-- C9: the law-6 sensitive growth function equals
`r1*(1 - S/K)*S*(1 - d*D/DMax) - gamma*S`; its crowding factor depends on
the sensitive count alone, so it (and the full law-6 `dS/dt` apart from the
switching flux) is independent of the resistant count, whereas laws 2, 4
and 5 do change with the resistant count (shown at concrete inputs). -/
theorem GrowthFun_S_law6_resistant_independent :
    (∀ (p : ParamDic) (N1 D N2 N2' : ℚ),
        GrowthFun_S_law6 p N1 N2 D = GrowthFun_S_law6 p N1 N2' D)
    ∧ (∀ (p : ParamDic) (N1 N2 D : ℚ),
        GrowthFun_S_law6 p N1 N2 D
          = p.r1 * (1 - N1 / p.K) * N1 * (1 - p.d * D / p.DMax) - p.gamma * N1)
    ∧ (∀ (p : ParamDic) (S D R R' : ℚ),
        (ModelEqns 6 (GrowthFun_S_law6 p) (GrowthFun_R_law6 p)
            (PhenotypicSwitchingFun_off p) p S R D).1
          = (ModelEqns 6 (GrowthFun_S_law6 p) (GrowthFun_R_law6 p)
              (PhenotypicSwitchingFun_off p) p S R' D).1)
    ∧ GrowthFun_S_law2 defaultParamDic 100 0 0
        ≠ GrowthFun_S_law2 defaultParamDic 100 (10^7) 0
    ∧ GrowthFun_S_law4 defaultParamDic 100 0 0
        ≠ GrowthFun_S_law4 defaultParamDic 100 (10^7) 0
    ∧ GrowthFun_S_law5 defaultParamDic 100 0 0
        ≠ GrowthFun_S_law5 defaultParamDic 100 (10^7) 0 := by
  refine ⟨fun p N1 D N2 N2' => rfl, fun p N1 N2 D => rfl, fun p S D R R' => rfl, ?_, ?_, ?_⟩
  · norm_num [GrowthFun_S_law2, defaultParamDic]
  · norm_num [GrowthFun_S_law4, defaultParamDic]
  · norm_num [GrowthFun_S_law5, defaultParamDic]

/-- C5: the divergence test on the raw solver output is exact: it triggers
precisely when some component of some solution column is strictly
negative; a solution whose components are all nonnegative (zeros
included) does not trigger it, and the all-zero column is accepted. -/
theorem hasNeg_exact (y : List State) :
    (hasNeg y = true ↔ ∃ s ∈ y, s.S < 0 ∨ s.R < 0 ∨ s.D < 0)
    ∧ ((∀ s ∈ y, 0 ≤ s.S ∧ 0 ≤ s.R ∧ 0 ≤ s.D) → hasNeg y = false)
    ∧ hasNeg [⟨0, 0, 0⟩] = false := by
  exact ⟨hasNeg_iff y, hasNeg_false_of_nonneg y, by simp [hasNeg]⟩

/-- Witness for C5: the nonnegativity hypothesis discharged on a concrete
solution containing an exact zero. -/
theorem hasNeg_exact_witness :
    (∀ s ∈ [State.mk 0 5 1, State.mk 3 0 0], 0 ≤ s.S ∧ 0 ≤ s.R ∧ 0 ≤ s.D)
    ∧ hasNeg [State.mk 0 5 1, State.mk 3 0 0] = false := by
  have h : ∀ s ∈ [State.mk 0 5 1, State.mk 3 0 0], 0 ≤ s.S ∧ 0 ≤ s.R ∧ 0 ≤ s.D := by
    intro s hs
    simp only [List.mem_cons, List.not_mem_nil, or_false] at hs
    rcases hs with rfl | rfl <;> norm_num
  exact ⟨h, (hasNeg_exact _).2.1 h⟩

/-- C8: under the linear observable model the `TumourSize` column equals
`scaleFactor * (S + R)` at every trajectory point, and with
`scaleFactor = 1` and a trajectory whose resistant column is identically
zero it equals the sensitive column exactly. -/
theorem linear_observable_column (sf : ℚ) (rows : List Row) :
    ((addTumourSize (RunCellCountToFluorescentAreaModel sf) rows).map
        (fun r => r.TumourSize)
      = rows.map (fun r => sf * (r.S + r.R)))
    ∧ (sf = 1 → (∀ r ∈ rows, r.R = 0) →
      (addTumourSize (RunCellCountToFluorescentAreaModel sf) rows).map
          (fun r => r.TumourSize)
        = rows.map (fun r => r.S)) := by
  have hbase : (addTumourSize (RunCellCountToFluorescentAreaModel sf) rows).map
      (fun r => r.TumourSize) = rows.map (fun r => sf * (r.S + r.R)) := by
    induction rows with
    | nil => rfl
    | cons r rs ih =>
      simpa [addTumourSize, RunCellCountToFluorescentAreaModel, add_comm] using
        congrArg (List.cons (sf * (r.S + r.R))) ih
  refine ⟨hbase, ?_⟩
  rintro rfl hR
  rw [hbase]
  apply List.map_congr_left
  intro r hr
  rw [hR r hr]
  ring

/-- Witness for C8: a concrete two-row trajectory with zero resistant
column; the observable column coincides with the sensitive column. -/
theorem linear_observable_column_witness :
    (addTumourSize (RunCellCountToFluorescentAreaModel 1)
        [Row.mk 0 7 0 2, Row.mk 1 9 0 2]).map (fun r => r.TumourSize)
      = [Row.mk 0 7 0 2, Row.mk 1 9 0 2].map (fun r => r.S) := by
  have h : ∀ r ∈ [Row.mk 0 7 0 2, Row.mk 1 9 0 2], r.R = 0 := by
    intro r hr
    simp only [List.mem_cons, List.not_mem_nil, or_false] at hr
    rcases hr with rfl | rfl <;> rfl
  exact (linear_observable_column 1 _).2 rfl h

/-- C1: if every interval before some point of the schedule passes the
checks and the solver call on the next interval reports failure or
returns a solution with a negative component, then `Simulate` (fresh
call) halts there: it returns normally (no exception path), with success
flag false, the diverging call's message recorded, and a stored
trajectory that is exactly the observable-augmented accumulation of the
completed intervals (the all-zero sentinel standing in when no interval
completed); no later interval contributes. -/
theorem Simulate_halts_on_divergence (solver : Solver) (sf dt : ℚ)
    (p : ParamDic) (pre post : List DosingInterval) (bad : DosingInterval)
    (stMid : State) (segs : List (List Row))
    (hacc : runAccum solver dt ⟨p.S0, p.R0, 0⟩ pre = some (segs, stMid))
    (hdiv : (!(solver (intervalGrid dt bad post)
          ⟨stMid.S, stMid.R, bad.dose⟩).success
        || hasNeg (solver (intervalGrid dt bad post)
            ⟨stMid.S, stMid.R, bad.dose⟩).y) = true)
    (hne : (intervalGrid dt bad post).isEmpty = false) :
    (Simulate solver (RunCellCountToFluorescentAreaModel sf) dt p none
        (pre ++ bad :: post)
      = some ⟨addTumourSize (RunCellCountToFluorescentAreaModel sf)
            (if segs.isEmpty then
              (firstGrid dt (pre ++ bad :: post)).map
                (fun t => (⟨t, 0, 0, 0⟩ : Row))
            else segs.flatten),
          false,
          some (solver (intervalGrid dt bad post)
            ⟨stMid.S, stMid.R, bad.dose⟩).message⟩)
    ∧ (pre ≠ [] →
        (if segs.isEmpty then
            (firstGrid dt (pre ++ bad :: post)).map
              (fun t => (⟨t, 0, 0, 0⟩ : Row))
          else segs.flatten) = segs.flatten) := by
  constructor
  · have hsched : pre ++ bad :: post ≠ [] := by
      cases pre <;> simp
    rw [Simulate_none_eq solver (RunCellCountToFluorescentAreaModel sf) dt p
      (pre ++ bad :: post) hsched]
    have hbreak := runLoop_break solver dt pre ⟨p.S0, p.R0, 0⟩ stMid segs bad
      post hacc hdiv hne
    simp only [SimulateFrom, hbreak]
    rfl
  · intro hpre
    have hlen : segs.length = pre.length :=
      runAccum_length solver dt pre ⟨p.S0, p.R0, 0⟩ segs stMid hacc
    have hsegs : segs ≠ [] := by
      intro hc
      apply hpre
      rw [hc] at hlen
      exact (List.length_eq_zero.mp hlen.symm)
    simp [List.isEmpty_iff, hsegs]

/-- Witness for C1: a solver that succeeds on the first interval and
fails on the second; the run keeps the first interval's trajectory,
reports the failure message, sets the success flag false and returns a
value (no exception). -/
theorem Simulate_halts_on_divergence_witness :
    Simulate lateFailSolver (RunCellCountToFluorescentAreaModel 1) 1
        defaultParamDic none [⟨0, 1, 0⟩, ⟨1, 2, 0⟩]
      = some ⟨[⟨0, 5000, 100, 0, 5100⟩], false, some "step failure"⟩ := by
  have harange01 : arange 0 1 1 = [0] := by
    rw [arange_eval 0 1 1 1 (by norm_num) (by norm_num)]
    norm_num [List.range_succ]
  have harange13 : arange 1 3 1 = [1, 2] := by
    rw [arange_eval 1 3 1 2 (by norm_num) (by norm_num)]
    norm_num [List.range_succ]
  have hacc : runAccum lateFailSolver 1
      ⟨defaultParamDic.S0, defaultParamDic.R0, 0⟩ [⟨0, 1, 0⟩]
      = some ([[⟨0, 5000, 100, 0⟩]], ⟨5000, 100, 0⟩) := by
    norm_num [runAccum, harange01, lateFailSolver, hasNeg, buildRows,
      defaultParamDic, List.getLast?]
  have happ := Simulate_halts_on_divergence lateFailSolver 1 1 defaultParamDic
    [⟨0, 1, 0⟩] [] ⟨1, 2, 0⟩ ⟨5000, 100, 0⟩ [[⟨0, 5000, 100, 0⟩]] hacc
    (by norm_num [intervalGrid, harange13, lateFailSolver])
    (by norm_num [intervalGrid, harange13])
  have happ1 := happ.1
  simp only [List.cons_append, List.nil_append] at happ1
  rw [happ1]
  norm_num [intervalGrid, harange13, lateFailSolver, addTumourSize_linear]

/-- C4: when the very first interval diverges on a fresh call, `Simulate`
returns (without raising) the all-zero placeholder trajectory over the
first interval's time grid, with a zero observable column, success flag
false and the failure message recorded. -/
theorem Simulate_first_interval_sentinel (solver : Solver) (sf dt : ℚ)
    (p : ParamDic) (iv0 : DosingInterval) (rest : List DosingInterval)
    (hne : firstGrid dt (iv0 :: rest) ≠ [])
    (hdiv : (!(solver (firstGrid dt (iv0 :: rest))
          ⟨p.S0, p.R0, iv0.dose⟩).success
        || hasNeg (solver (firstGrid dt (iv0 :: rest))
            ⟨p.S0, p.R0, iv0.dose⟩).y) = true) :
    Simulate solver (RunCellCountToFluorescentAreaModel sf) dt p none
        (iv0 :: rest)
      = some ⟨(firstGrid dt (iv0 :: rest)).map (fun t => ⟨t, 0, 0, 0, 0⟩),
          false,
          some (solver (firstGrid dt (iv0 :: rest))
            ⟨p.S0, p.R0, iv0.dose⟩).message⟩ := by
  have hgrid : firstGrid dt (iv0 :: rest) = intervalGrid dt iv0 rest := rfl
  have hne' : (intervalGrid dt iv0 rest).isEmpty = false := by
    rw [← hgrid]
    cases hc : firstGrid dt (iv0 :: rest) with
    | nil => exact absurd hc hne
    | cons a l => rfl
  have hacc : runAccum solver dt ⟨p.S0, p.R0, 0⟩ [] =
      some ([], ⟨p.S0, p.R0, 0⟩) := rfl
  have hbreak := runLoop_break solver dt [] ⟨p.S0, p.R0, 0⟩ ⟨p.S0, p.R0, 0⟩ []
    iv0 rest hacc (by simpa [← hgrid] using hdiv) hne'
  rw [Simulate_none_eq solver (RunCellCountToFluorescentAreaModel sf) dt p
    (iv0 :: rest) (by simp)]
  simp only [SimulateFrom, List.nil_append] at hbreak ⊢
  rw [hbreak]
  simp only [List.isEmpty_nil, if_true, addTumourSize_linear, List.map_map]
  rw [hgrid]
  norm_num

/-- Witness for C4: an always-failing solver on the single-interval
schedule [(0,2,1)] with dt = 1 yields the all-zero trajectory over the
grid [0,1,2] and a false success flag. -/
theorem Simulate_first_interval_sentinel_witness :
    Simulate failSolver (RunCellCountToFluorescentAreaModel 1) 1
        defaultParamDic none [⟨0, 2, 1⟩]
      = some ⟨[⟨0, 0, 0, 0, 0⟩, ⟨1, 0, 0, 0, 0⟩, ⟨2, 0, 0, 0, 0⟩], false,
          some "solver failure"⟩ := by
  have harange : arange 0 3 1 = [0, 1, 2] := by
    rw [arange_eval 0 3 1 3 (by norm_num) (by norm_num)]
    norm_num [List.range_succ]
  have happ := Simulate_first_interval_sentinel failSolver 1 1 defaultParamDic
    ⟨0, 2, 1⟩ []
    (by
      norm_num [firstGrid, intervalGrid, harange]
      exact List.cons_ne_nil _ _)
    (by norm_num [failSolver])
  rw [happ]
  norm_num [firstGrid, intervalGrid, harange, failSolver, defaultParamDic]

/-- C3: when no prior trajectory is stored or the schedule starts at time
0, `Simulate` discards the prior trajectory and seeds the integration
from the initial state (S0, R0, drug 0); otherwise it seeds from the last
recorded state of the prior trajectory, and the new trajectory is
appended after the prior one in the stored result. -/
theorem Simulate_restart_and_continuation (solver : Solver)
    (areaFun : List Row → List ℚ) (dt : ℚ) (p : ParamDic)
    (prior : Option (List ObsRow)) (iv0 : DosingInterval)
    (rest : List DosingInterval) :
    ((prior = none ∨ iv0.tStart = 0) →
      Simulate solver areaFun dt p prior (iv0 :: rest)
        = SimulateFrom solver areaFun dt ⟨p.S0, p.R0, 0⟩ none (iv0 :: rest))
    ∧ (∀ df r, prior = some df → iv0.tStart ≠ 0 → df.getLast? = some r →
        Simulate solver areaFun dt p prior (iv0 :: rest)
          = SimulateFrom solver areaFun dt ⟨r.S, r.R, r.DrugConcentration⟩
              (some df) (iv0 :: rest)
        ∧ ∀ m', Simulate solver areaFun dt p prior (iv0 :: rest) = some m' →
            ∃ newRows, m'.resultsDf = df ++ newRows) := by
  constructor
  · rintro (rfl | hstart)
    · exact Simulate_none_eq solver areaFun dt p _ (by simp)
    · cases prior with
      | none => exact Simulate_none_eq solver areaFun dt p _ (by simp)
      | some df =>
        exact Simulate_restart_eq solver areaFun dt p df iv0 rest hstart
  · rintro df r rfl hstart hlast
    have heq := Simulate_continue_eq solver areaFun dt p df r iv0 rest hstart
      hlast
    refine ⟨heq, ?_⟩
    intro m' hm'
    rw [heq] at hm'
    simp only [SimulateFrom] at hm'
    split at hm'
    · exact Option.noConfusion hm'
    next segs prob msg hrun =>
      injection hm' with h'
      exact ⟨_, by rw [← h']⟩

/-- Witness for C3: a restart call (schedule starting at 0) discards a
stored one-row trajectory, while a continuation call (schedule starting
at 5) seeds from that row's state (S,R,drug) = (1,2,3) and keeps the
stored row. -/
theorem Simulate_restart_and_continuation_witness :
    (Simulate constSolver (RunCellCountToFluorescentAreaModel 1) 1
        defaultParamDic (some [⟨0, 1, 2, 3, 5⟩]) [⟨0, 2, 0⟩]
      = SimulateFrom constSolver (RunCellCountToFluorescentAreaModel 1) 1
          ⟨defaultParamDic.S0, defaultParamDic.R0, 0⟩ none [⟨0, 2, 0⟩])
    ∧ (Simulate constSolver (RunCellCountToFluorescentAreaModel 1) 1
        defaultParamDic (some [⟨0, 1, 2, 3, 5⟩]) [⟨5, 6, 0⟩]
      = SimulateFrom constSolver (RunCellCountToFluorescentAreaModel 1) 1
          ⟨1, 2, 3⟩ (some [⟨0, 1, 2, 3, 5⟩]) [⟨5, 6, 0⟩]) := by
  constructor
  · exact (Simulate_restart_and_continuation constSolver
      (RunCellCountToFluorescentAreaModel 1) 1 defaultParamDic
      (some [⟨0, 1, 2, 3, 5⟩]) ⟨0, 2, 0⟩ []).1 (Or.inr rfl)
  · exact ((Simulate_restart_and_continuation constSolver
      (RunCellCountToFluorescentAreaModel 1) 1 defaultParamDic
      (some [⟨0, 1, 2, 3, 5⟩]) ⟨5, 6, 0⟩ []).2 [⟨0, 1, 2, 3, 5⟩] ⟨0, 1, 2, 3, 5⟩
      rfl (by norm_num) (by simp)).1

/-- The clamping solver satisfies the well-behaved solver specification. -/
theorem clampSolver_spec : SolverSpec clampSolver := by
  intro tVec y0
  refine ⟨rfl, by simp [clampSolver], ?_⟩
  intro s hs
  simp only [clampSolver, List.mem_map] at hs
  obtain ⟨t, ht, rfl⟩ := hs
  exact ⟨rfl, le_max_right _ _, le_max_right _ _⟩

/-- Under a well-behaved solver, the prefix runner never fails on a
schedule of forward intervals with nonnegative doses. -/
theorem runAccum_total_of_spec (solver : Solver) (dt : ℚ) (hdt : 0 < dt)
    (hspec : SolverSpec solver) :
    ∀ (pre : List DosingInterval),
      (∀ iv ∈ pre, 0 ≤ iv.dose ∧ iv.tStart < iv.tEnd) →
      ∀ st : State, ∃ segs fin,
        runAccum solver dt st pre = some (segs, fin) := by
  intro pre
  induction pre with
  | nil =>
    intro _ st
    exact ⟨[], st, rfl⟩
  | cons iv rest ih =>
    intro hdose st
    obtain ⟨hd, ht⟩ := hdose iv (List.mem_cons_self _ _)
    have hne : arange iv.tStart iv.tEnd dt ≠ [] := arange_ne_nil _ _ _ hdt ht
    obtain ⟨hsucc, hlen, hcols⟩ :=
      hspec (arange iv.tStart iv.tEnd dt) ⟨st.S, st.R, iv.dose⟩
    have hnegf : hasNeg
        (solver (arange iv.tStart iv.tEnd dt) ⟨st.S, st.R, iv.dose⟩).y
        = false := by
      apply hasNeg_false_of_nonneg
      intro q hq
      obtain ⟨hD, hS, hR⟩ := hcols q hq
      exact ⟨hS, hR, by rw [hD]; exact hd⟩
    have hylen : (solver (arange iv.tStart iv.tEnd dt)
        ⟨st.S, st.R, iv.dose⟩).y ≠ [] := by
      intro hc
      rw [hc] at hlen
      exact hne (List.length_eq_zero.mp hlen.symm)
    obtain ⟨lastCol, hlast⟩ :=
      Option.isSome_iff_exists.mp (List.getLast?_isSome.mpr hylen)
    obtain ⟨segs, fin, hrec⟩ :=
      ih (fun i hi => hdose i (List.mem_cons_of_mem _ hi)) lastCol
    refine ⟨buildRows (arange iv.tStart iv.tEnd dt)
      (solver (arange iv.tStart iv.tEnd dt) ⟨st.S, st.R, iv.dose⟩).y :: segs,
      fin, ?_⟩
    simp [runAccum, List.isEmpty_iff, hne, hsucc, hnegf, hlen, hlast, hrec]

/-- C10: a schedule interval with a strictly negative drug level makes
`Simulate` diverge at that interval even when the solver keeps both
populations nonnegative: the drug component, held constant at the dose,
fails the negativity check applied to all three components, processing
halts, and the success flag is false while the call still returns a
value. -/
theorem Simulate_negative_dose_diverges (solver : Solver) (sf dt : ℚ)
    (p : ParamDic) (pre post : List DosingInterval) (bad : DosingInterval)
    (hdt : 0 < dt) (hspec : SolverSpec solver)
    (hpre : ∀ iv ∈ pre, 0 ≤ iv.dose ∧ iv.tStart < iv.tEnd)
    (hbt : bad.tStart < bad.tEnd) (hbd : bad.dose < 0) :
    ∃ m, Simulate solver (RunCellCountToFluorescentAreaModel sf) dt p none
        (pre ++ bad :: post) = some m ∧ m.successB = false := by
  obtain ⟨segs, stMid, hacc⟩ :=
    runAccum_total_of_spec solver dt hdt hspec pre hpre ⟨p.S0, p.R0, 0⟩
  have hgridne : intervalGrid dt bad post ≠ [] := by
    unfold intervalGrid
    split
    · exact arange_ne_nil _ _ _ hdt (by linarith)
    · exact arange_ne_nil _ _ _ hdt hbt
  have hgne : (intervalGrid dt bad post).isEmpty = false := by
    simp [List.isEmpty_iff, hgridne]
  obtain ⟨hsucc, hlen, hcols⟩ :=
    hspec (intervalGrid dt bad post) ⟨stMid.S, stMid.R, bad.dose⟩
  have hyne : (solver (intervalGrid dt bad post)
      ⟨stMid.S, stMid.R, bad.dose⟩).y ≠ [] := by
    intro hc
    rw [hc] at hlen
    exact hgridne (List.length_eq_zero.mp hlen.symm)
  have hneg : hasNeg (solver (intervalGrid dt bad post)
      ⟨stMid.S, stMid.R, bad.dose⟩).y = true := by
    rw [hasNeg_iff]
    obtain ⟨q, hq⟩ := List.exists_mem_of_ne_nil _ hyne
    exact ⟨q, hq, Or.inr (Or.inr (by rw [(hcols q hq).1]; exact hbd))⟩
  have hdiv : (!(solver (intervalGrid dt bad post)
        ⟨stMid.S, stMid.R, bad.dose⟩).success
      || hasNeg (solver (intervalGrid dt bad post)
          ⟨stMid.S, stMid.R, bad.dose⟩).y) = true := by
    rw [hsucc, hneg]
    rfl
  have hbreak := runLoop_break solver dt pre ⟨p.S0, p.R0, 0⟩ stMid segs bad
    post hacc hdiv hgne
  rw [Simulate_none_eq solver (RunCellCountToFluorescentAreaModel sf) dt p
    (pre ++ bad :: post) (by cases pre <;> simp)]
  simp only [SimulateFrom, hbreak, Bool.not_true]
  exact ⟨_, rfl, rfl⟩

/-- Witness for C10: the clamping solver on the schedule
[(0,1,0), (1,2,-5)]; the negative dose makes the run end unsuccessfully
while still returning a result. -/
theorem Simulate_negative_dose_diverges_witness :
    (0 : ℚ) < 1 ∧ (-5 : ℚ) < 0
    ∧ ∃ m, Simulate clampSolver (RunCellCountToFluorescentAreaModel 1) 1
        defaultParamDic none [⟨0, 1, 0⟩, ⟨1, 2, -5⟩] = some m
      ∧ m.successB = false := by
  refine ⟨by norm_num, by norm_num, ?_⟩
  have h := Simulate_negative_dose_diverges clampSolver 1 1 defaultParamDic
    [⟨0, 1, 0⟩] [] ⟨1, 2, -5⟩ (by norm_num) clampSolver_spec
    (by
      intro iv hiv
      simp only [List.mem_cons, List.not_mem_nil, or_false] at hiv
      subst hiv
      constructor <;> norm_num)
    (by norm_num) (by norm_num)
  simpa using h

/-- C7 (amended): for positive dt, every non-final interval grid is
exactly the half-open set of points start + k*dt strictly below end; the
final interval's grid extends one step further (points strictly below
end + dt) and contains the end point exactly when the span is a natural
multiple of dt; in particular the single-interval schedule [(0,10,dose)]
at dt = 1 yields exactly the 11 samples 0,...,10. -/
theorem grid_semantics (a b dt : ℚ) (hdt : 0 < dt) :
    (∀ x, x ∈ arange a b dt ↔ ∃ k : ℕ, x = a + (k : ℚ) * dt ∧ x < b)
    ∧ (∀ x, x ∈ arange a (b + dt) dt ↔
        ∃ k : ℕ, x = a + (k : ℚ) * dt ∧ x < b + dt)
    ∧ (b ∈ arange a (b + dt) dt ↔ ∃ k : ℕ, b = a + (k : ℚ) * dt)
    ∧ firstGrid 1 [⟨0, 10, 0⟩] = [0, 1, 2, 3, 4, 5, 6, 7, 8, 9, 10]
    ∧ (Simulate constSolver (RunCellCountToFluorescentAreaModel 1) 1
          defaultParamDic none [⟨0, 10, 0⟩]).map
        (fun m => (m.resultsDf.map (fun r => r.Time), m.resultsDf.length))
      = some ([0, 1, 2, 3, 4, 5, 6, 7, 8, 9, 10], 11) := by
  have harange : arange 0 11 1 = [0, 1, 2, 3, 4, 5, 6, 7, 8, 9, 10] := by
    rw [arange_eval 0 11 1 11 (by norm_num) (by norm_num)]
    norm_num [List.range_succ]
  refine ⟨fun x => arange_mem a b dt x hdt, fun x => arange_mem a (b + dt) dt x hdt,
    ?_, ?_, ?_⟩
  · constructor
    · intro hmem
      obtain ⟨k, hk, _⟩ := (arange_mem a (b + dt) dt b hdt).mp hmem
      exact ⟨k, hk⟩
    · rintro ⟨k, hk⟩
      exact (arange_mem a (b + dt) dt b hdt).mpr ⟨k, hk, by linarith⟩
  · norm_num [firstGrid, intervalGrid, harange]
  · norm_num [Simulate, SimulateFrom, runLoop, intervalGrid, harange, constSolver,
      hasNeg, buildRows, addTumourSize_linear, firstGrid, defaultParamDic,
      List.getLast?_cons_cons, List.getLast?_singleton]

/-- Witness for C7 (amended): the grid characterisation applied at
dt = 1 to the point 3 of the grid over [0,5). -/
theorem grid_semantics_witness :
    (0 : ℚ) < 1
    ∧ ((3 : ℚ) ∈ arange 0 5 1 ↔
        ∃ k : ℕ, (3 : ℚ) = 0 + (k : ℚ) * 1 ∧ (3 : ℚ) < 5) :=
  ⟨by norm_num, (grid_semantics 0 5 1 (by norm_num)).1 3⟩

/-- C7 counterexample: with dt = 3 on the single-interval schedule
[(0,10,0)] the final grid is [0,3,6,9,12]: it does not include the end
point 10 (and runs one step past it), and the simulated trajectory
samples exactly these times, refuting the claim that the final
interval's grid always includes the end point. -/
theorem grid_endpoint_counterexample :
    firstGrid 3 [⟨0, 10, 0⟩] = [0, 3, 6, 9, 12]
    ∧ (10 : ℚ) ∉ ([0, 3, 6, 9, 12] : List ℚ)
    ∧ (Simulate constSolver (RunCellCountToFluorescentAreaModel 1) 3
          defaultParamDic none [⟨0, 10, 0⟩]).map
        (fun m => m.resultsDf.map (fun r => r.Time))
      = some [0, 3, 6, 9, 12] := by
  have harange : arange 0 13 3 = [0, 3, 6, 9, 12] := by
    rw [arange_eval 0 13 3 5 (by norm_num) (by norm_num)]
    norm_num [List.range_succ]
  refine ⟨by norm_num [firstGrid, intervalGrid, harange], by norm_num, ?_⟩
  norm_num [Simulate, SimulateFrom, runLoop, intervalGrid, harange, constSolver,
    hasNeg, buildRows, addTumourSize_linear, firstGrid, defaultParamDic,
    List.getLast?_cons_cons, List.getLast?_singleton]

/-- Inversion of one step of the interval loop: it either broke on this
interval, or this interval passed every check and the loop continued
from its last solution column. -/
theorem runLoop_cons_inv (solver : Solver) (dt : ℚ) (st : State)
    (iv : DosingInterval) (rest : List DosingInterval)
    (segs : List (List Row)) (prob : Bool) (msg : Option String)
    (h : runLoop solver dt st (iv :: rest) = some (segs, prob, msg)) :
    (prob = true ∧ segs = []
      ∧ msg = some (solver (intervalGrid dt iv rest)
          ⟨st.S, st.R, iv.dose⟩).message)
    ∨ (∃ lastCol segs',
        (solver (intervalGrid dt iv rest) ⟨st.S, st.R, iv.dose⟩).y.length
            = (intervalGrid dt iv rest).length
        ∧ (solver (intervalGrid dt iv rest) ⟨st.S, st.R, iv.dose⟩).y.getLast?
            = some lastCol
        ∧ runLoop solver dt lastCol rest = some (segs', prob, msg)
        ∧ segs = buildRows (intervalGrid dt iv rest)
            (solver (intervalGrid dt iv rest) ⟨st.S, st.R, iv.dose⟩).y
              :: segs') := by
  simp only [runLoop] at h
  split at h
  · exact Option.noConfusion h
  next hne =>
    split at h
    next hbad =>
      injection h with h'
      injection h' with h1 h23
      injection h23 with h2 h3
      exact Or.inl ⟨h2.symm, h1.symm, h3.symm⟩
    next hok =>
      split at h
      · exact Option.noConfusion h
      next hlen =>
        split at h
        · exact Option.noConfusion h
        next lastCol hlast =>
          split at h
          · exact Option.noConfusion h
          next segs' prob' msg' hrec =>
            injection h with h'
            injection h' with h1 h23
            injection h23 with h2 h3
            subst h2
            subst h3
            exact Or.inr ⟨lastCol, segs', not_ne_iff.mp hlen, hlast, hrec,
              h1.symm⟩

/-- A run of the interval loop that ends with the problem flag unset has
no message and produces per-interval DataFrames whose time columns are
exactly the interval grids. -/
theorem runLoop_ok_times (solver : Solver) (dt : ℚ) :
    ∀ (ivs : List DosingInterval) (st : State) (segs : List (List Row))
      (msg : Option String),
      runLoop solver dt st ivs = some (segs, false, msg) →
      msg = none
      ∧ segs.map (fun seg => seg.map (fun r => r.Time)) = gridList dt ivs := by
  intro ivs
  induction ivs with
  | nil =>
    intro st segs msg h
    simp only [runLoop] at h
    injection h with h'
    injection h' with h1 h23
    injection h23 with h2 h3
    refine ⟨h3.symm, ?_⟩
    rw [← h1]
    rfl
  | cons iv rest ih =>
    intro st segs msg h
    rcases runLoop_cons_inv solver dt st iv rest segs false msg h with
      ⟨hprob, _, _⟩ | ⟨lastCol, segs', hlen, hlast, hrec, hsegs⟩
    · exact Bool.noConfusion hprob
    · obtain ⟨hmsg, htimes⟩ := ih lastCol segs' msg hrec
      subst hsegs
      refine ⟨hmsg, ?_⟩
      simp only [List.map_cons, gridList]
      rw [buildRows_times _ _ hlen, htimes]

/-- A successful `SimulateFrom` run with the linear observable stores the
retained prior trajectory followed by one row per grid point of every
interval, with time columns exactly the interval grids, and no message. -/
theorem SimulateFrom_ok_times (solver : Solver) (sf dt : ℚ) (st0 : State)
    (prior : Option (List ObsRow)) (sched : List DosingInterval)
    (m : SimResult) (hsched : sched ≠ [])
    (h : SimulateFrom solver (RunCellCountToFluorescentAreaModel sf) dt st0
        prior sched = some m)
    (hs : m.successB = true) :
    m.errMessage = none
    ∧ m.resultsDf.map (fun r => r.Time)
      = (match prior with
          | none => []
          | some df => df.map (fun r => r.Time))
        ++ (gridList dt sched).flatten := by
  simp only [SimulateFrom] at h
  split at h
  · exact Option.noConfusion h
  next segs prob msg hrun =>
    injection h with h'
    subst h'
    have hprob : prob = false := by
      simpa using hs
    subst hprob
    obtain ⟨hmsg, htimes⟩ := runLoop_ok_times solver dt sched st0 segs msg hrun
    subst hmsg
    have hsegs_ne : segs ≠ [] := by
      intro hc
      subst hc
      cases sched with
      | nil => exact hsched rfl
      | cons iv rest => simp [gridList] at htimes
    have hif : (if segs.isEmpty = true then
          (firstGrid dt sched).map (fun t => (⟨t, 0, 0, 0⟩ : Row))
        else segs.flatten) = segs.flatten := by
      simp [List.isEmpty_iff, hsegs_ne]
    refine ⟨rfl, ?_⟩
    cases prior with
    | none =>
      simp only [hif, addTumourSize_times, List.map_flatten, htimes,
        List.nil_append]
    | some df =>
      simp only [hif, List.map_append, addTumourSize_times, List.map_flatten,
        htimes]

/-- C6 (amended): a two-interval schedule simulated in one call and the
same schedule simulated as two consecutive calls do NOT sample the same
times: the single-interval first call treats T1 as its final (closed)
endpoint, so the two-call trajectory carries one extra sample at T1 and
is one row longer; outside this extra boundary sample the time grids
agree.  (Consequently the trajectories are not identical as the original
claim stated.) -/
theorem continuation_extra_sample (solver : Solver) (sf dt T1 T2 d1 d2 : ℚ)
    (n1 n2 : ℕ) (p : ParamDic) (m1 ma mb : SimResult)
    (hdt : 0 < dt) (hn1 : 1 ≤ n1)
    (hT1 : T1 = (n1 : ℚ) * dt) (hT2 : T2 = T1 + (n2 : ℚ) * dt)
    (h1 : Simulate solver (RunCellCountToFluorescentAreaModel sf) dt p none
        [⟨0, T1, d1⟩, ⟨T1, T2, d2⟩] = some m1)
    (hs1 : m1.successB = true)
    (h2 : Simulate solver (RunCellCountToFluorescentAreaModel sf) dt p none
        [⟨0, T1, d1⟩] = some ma)
    (hs2 : ma.successB = true)
    (h3 : Simulate solver (RunCellCountToFluorescentAreaModel sf) dt p
        (some ma.resultsDf) [⟨T1, T2, d2⟩] = some mb)
    (hs3 : mb.successB = true) :
    m1.resultsDf.map (fun r => r.Time)
      = arange 0 T1 dt ++ arange T1 (T2 + dt) dt
    ∧ mb.resultsDf.map (fun r => r.Time)
      = (arange 0 T1 dt ++ [T1]) ++ arange T1 (T2 + dt) dt
    ∧ mb.resultsDf.length = m1.resultsDf.length + 1 := by
  have hn1q : (1 : ℚ) ≤ (n1 : ℚ) := by exact_mod_cast hn1
  have hT1pos : 0 < T1 := by
    rw [hT1]
    nlinarith
  rw [Simulate_none_eq solver (RunCellCountToFluorescentAreaModel sf) dt p _
    (by simp)] at h1
  obtain ⟨_, ht1⟩ := SimulateFrom_ok_times solver sf dt ⟨p.S0, p.R0, 0⟩ none
    [⟨0, T1, d1⟩, ⟨T1, T2, d2⟩] m1 (by simp) h1 hs1
  simp only [gridList, intervalGrid, List.isEmpty_cons, List.isEmpty_nil,
    List.flatten_cons, List.flatten_nil, List.append_nil, List.nil_append,
    if_true, if_false, Bool.false_eq_true] at ht1
  rw [Simulate_none_eq solver (RunCellCountToFluorescentAreaModel sf) dt p _
    (by simp)] at h2
  obtain ⟨_, ht2⟩ := SimulateFrom_ok_times solver sf dt ⟨p.S0, p.R0, 0⟩ none
    [⟨0, T1, d1⟩] ma (by simp) h2 hs2
  simp only [gridList, intervalGrid, List.isEmpty_nil, List.flatten_cons,
    List.flatten_nil, List.append_nil, List.nil_append, if_true] at ht2
  have hsplit : arange 0 (T1 + dt) dt = arange 0 T1 dt ++ [T1] := by
    have e := arange_append_last 0 n1 dt hdt
    simp only [zero_add] at e
    rw [hT1]
    exact e
  have hmane : ma.resultsDf ≠ [] := by
    intro hc
    rw [hc] at ht2
    exact arange_ne_nil 0 (T1 + dt) dt hdt (by linarith) ht2.symm
  obtain ⟨r, hr⟩ := Option.isSome_iff_exists.mp (List.getLast?_isSome.mpr hmane)
  rw [Simulate_continue_eq solver (RunCellCountToFluorescentAreaModel sf) dt p
    ma.resultsDf r ⟨T1, T2, d2⟩ [] (by simpa using hT1pos.ne') hr] at h3
  obtain ⟨_, ht3⟩ := SimulateFrom_ok_times solver sf dt
    ⟨r.S, r.R, r.DrugConcentration⟩ (some ma.resultsDf) [⟨T1, T2, d2⟩] mb
    (by simp) h3 hs3
  simp only [gridList, intervalGrid, List.isEmpty_nil, List.flatten_cons,
    List.flatten_nil, List.append_nil, if_true] at ht3
  rw [ht2, hsplit] at ht3
  refine ⟨ht1, ht3, ?_⟩
  have l1 := congrArg List.length ht1
  have l3 := congrArg List.length ht3
  simp only [List.length_map, List.length_append, List.length_cons,
    List.length_nil] at l1 l3
  omega

/-- Concrete run: one call on the two-interval schedule
[(0,2,0),(2,4,0)] with the state-holding solver. -/
theorem constSolver_run_two_intervals :
    Simulate constSolver (RunCellCountToFluorescentAreaModel 1) 1
        defaultParamDic none [⟨0, 2, 0⟩, ⟨2, 4, 0⟩]
      = some ⟨[⟨0, 5000, 100, 0, 5100⟩, ⟨1, 5000, 100, 0, 5100⟩,
          ⟨2, 5000, 100, 0, 5100⟩, ⟨3, 5000, 100, 0, 5100⟩,
          ⟨4, 5000, 100, 0, 5100⟩], true, none⟩ := by
  have h02 : arange 0 2 1 = [0, 1] := by
    rw [arange_eval 0 2 1 2 (by norm_num) (by norm_num)]
    norm_num [List.range_succ]
  have h25 : arange 2 5 1 = [2, 3, 4] := by
    rw [arange_eval 2 5 1 3 (by norm_num) (by norm_num)]
    norm_num [List.range_succ]
  norm_num [Simulate, SimulateFrom, runLoop, intervalGrid, h02, h25, constSolver,
    hasNeg, buildRows, addTumourSize_linear, firstGrid, defaultParamDic,
    List.getLast?_cons_cons, List.getLast?_singleton]

/-- Concrete run: first call on the single-interval schedule [(0,2,0)]
with the state-holding solver; the closing grid includes T1 = 2. -/
theorem constSolver_run_first :
    Simulate constSolver (RunCellCountToFluorescentAreaModel 1) 1
        defaultParamDic none [⟨0, 2, 0⟩]
      = some ⟨[⟨0, 5000, 100, 0, 5100⟩, ⟨1, 5000, 100, 0, 5100⟩,
          ⟨2, 5000, 100, 0, 5100⟩], true, none⟩ := by
  have h03 : arange 0 3 1 = [0, 1, 2] := by
    rw [arange_eval 0 3 1 3 (by norm_num) (by norm_num)]
    norm_num [List.range_succ]
  norm_num [Simulate, SimulateFrom, runLoop, intervalGrid, h03, constSolver,
    hasNeg, buildRows, addTumourSize_linear, firstGrid, defaultParamDic,
    List.getLast?_cons_cons, List.getLast?_singleton]

/-- Concrete run: continuation call on [(2,4,0)] after the single-interval
first call; the stored trajectory is appended to, duplicating time 2. -/
theorem constSolver_run_continuation :
    Simulate constSolver (RunCellCountToFluorescentAreaModel 1) 1
        defaultParamDic
        (some [⟨0, 5000, 100, 0, 5100⟩, ⟨1, 5000, 100, 0, 5100⟩,
          ⟨2, 5000, 100, 0, 5100⟩]) [⟨2, 4, 0⟩]
      = some ⟨[⟨0, 5000, 100, 0, 5100⟩, ⟨1, 5000, 100, 0, 5100⟩,
          ⟨2, 5000, 100, 0, 5100⟩, ⟨2, 5000, 100, 0, 5100⟩,
          ⟨3, 5000, 100, 0, 5100⟩, ⟨4, 5000, 100, 0, 5100⟩], true, none⟩ := by
  have h25 : arange 2 5 1 = [2, 3, 4] := by
    rw [arange_eval 2 5 1 3 (by norm_num) (by norm_num)]
    norm_num [List.range_succ]
  norm_num [Simulate, SimulateFrom, runLoop, intervalGrid, h25, constSolver,
    hasNeg, buildRows, addTumourSize_linear, firstGrid, defaultParamDic,
    List.getLast?_cons_cons, List.getLast?_singleton]

/-- C6 counterexample: with an exact state-holding solver, the one-call
trajectory over [(0,2,0),(2,4,0)] samples times [0,1,2,3,4] while the
two-call continuation samples [0,1,2,2,3,4]: the sample-time sequences
(and hence the trajectories) differ, refuting the claimed identity. -/
theorem continuation_counterexample :
    (Simulate constSolver (RunCellCountToFluorescentAreaModel 1) 1
        defaultParamDic none [⟨0, 2, 0⟩, ⟨2, 4, 0⟩]).map
      (fun m => m.resultsDf.map (fun r => r.Time)) = some [0, 1, 2, 3, 4]
    ∧ ((Simulate constSolver (RunCellCountToFluorescentAreaModel 1) 1
          defaultParamDic none [⟨0, 2, 0⟩]).bind (fun ma =>
          Simulate constSolver (RunCellCountToFluorescentAreaModel 1) 1
            defaultParamDic (some ma.resultsDf) [⟨2, 4, 0⟩])).map
      (fun m => m.resultsDf.map (fun r => r.Time)) = some [0, 1, 2, 2, 3, 4]
    ∧ ([0, 1, 2, 3, 4] : List ℚ) ≠ [0, 1, 2, 2, 3, 4] := by
  refine ⟨?_, ?_, by norm_num⟩
  · rw [constSolver_run_two_intervals]
    norm_num
  · rw [constSolver_run_first]
    show (Simulate constSolver (RunCellCountToFluorescentAreaModel 1) 1
        defaultParamDic (some [⟨0, 5000, 100, 0, 5100⟩, ⟨1, 5000, 100, 0, 5100⟩,
          ⟨2, 5000, 100, 0, 5100⟩]) [⟨2, 4, 0⟩]).map
      (fun m => m.resultsDf.map (fun r => r.Time)) = some [0, 1, 2, 2, 3, 4]
    rw [constSolver_run_continuation]
    norm_num

/-- Witness for C6 (amended): the three concrete runs above instantiate
the amended statement at dt = 1, T1 = 2, T2 = 4. -/
theorem continuation_extra_sample_witness :
    ([⟨0, 5000, 100, 0, 5100⟩, ⟨1, 5000, 100, 0, 5100⟩,
        ⟨2, 5000, 100, 0, 5100⟩, ⟨3, 5000, 100, 0, 5100⟩,
        ⟨4, 5000, 100, 0, 5100⟩] : List ObsRow).map (fun r => r.Time)
      = arange 0 2 1 ++ arange 2 (4 + 1) 1
    ∧ ([⟨0, 5000, 100, 0, 5100⟩, ⟨1, 5000, 100, 0, 5100⟩,
        ⟨2, 5000, 100, 0, 5100⟩, ⟨2, 5000, 100, 0, 5100⟩,
        ⟨3, 5000, 100, 0, 5100⟩, ⟨4, 5000, 100, 0, 5100⟩] : List ObsRow).length
      = ([⟨0, 5000, 100, 0, 5100⟩, ⟨1, 5000, 100, 0, 5100⟩,
          ⟨2, 5000, 100, 0, 5100⟩, ⟨3, 5000, 100, 0, 5100⟩,
          ⟨4, 5000, 100, 0, 5100⟩] : List ObsRow).length + 1 := by
  have h := continuation_extra_sample constSolver 1 1 2 4 0 0 2 2
    defaultParamDic
    ⟨[⟨0, 5000, 100, 0, 5100⟩, ⟨1, 5000, 100, 0, 5100⟩,
      ⟨2, 5000, 100, 0, 5100⟩, ⟨3, 5000, 100, 0, 5100⟩,
      ⟨4, 5000, 100, 0, 5100⟩], true, none⟩
    ⟨[⟨0, 5000, 100, 0, 5100⟩, ⟨1, 5000, 100, 0, 5100⟩,
      ⟨2, 5000, 100, 0, 5100⟩], true, none⟩
    ⟨[⟨0, 5000, 100, 0, 5100⟩, ⟨1, 5000, 100, 0, 5100⟩,
      ⟨2, 5000, 100, 0, 5100⟩, ⟨2, 5000, 100, 0, 5100⟩,
      ⟨3, 5000, 100, 0, 5100⟩, ⟨4, 5000, 100, 0, 5100⟩], true, none⟩
    (by norm_num) (by norm_num) (by norm_num) (by norm_num)
    constSolver_run_two_intervals rfl
    constSolver_run_first rfl
    constSolver_run_continuation rfl
  exact ⟨h.1, h.2.2⟩

/-- Witness for C9: the law-6 sensitive growth rate is unchanged when the
resistant count moves from 7 to 9 at fixed S = 100, D = 50. -/
theorem GrowthFun_S_law6_resistant_independent_witness :
    GrowthFun_S_law6 defaultParamDic 100 7 50
      = GrowthFun_S_law6 defaultParamDic 100 9 50 :=
  GrowthFun_S_law6_resistant_independent.1 defaultParamDic 100 50 7 9
